import Mathlib

/-!
Verification development for the She-Help repository.

Two components are embedded shallowly:

* the SEP-10-style challenge protocol from the vendored stellar-sdk
  utils module (buildChallengeTx, verifyChallengeTx, verifyTxSignedBy,
  validateTimebounds);
* the Horizon query CallBuilder (call/checkFilter, link
  materialization in _parseRecord, collection-page pagination, and the
  reconnecting stream handlers).

Conventions of the embedding:

* Machine time (Math.floor(Date.now() / 1000)) is passed explicitly as
  a natural number parameter named now.
* The stellar-base cryptographic layer is idealized: a keypair is
  identified by its public-key string; a decorated signature records
  the signer and the exact signature base it was produced over, and
  ed25519 verification succeeds exactly when both match.  The
  signature base (Transaction.hash in stellar-base) is the pair of the
  network passphrase and the transaction body.
* The XDR base64 envelope is abstracted to the structure it encodes
  (body plus signature list); serialization round-trips, so
  buildChallengeTx returns the Envelope structure and verifyChallengeTx
  consumes it, pairing it with the verifier-supplied network
  passphrase exactly as new Transaction(challengeTx, networkPassphrase)
  does.
* The manageData operation value is stored as its base64-decoded byte
  content (a list of byte values); the length-48 check of
  verifyChallengeTx inspects that decoded length, exactly as
  Buffer.from(operation.value.toString(), "base64").length does.
* InvalidSep10ChallengeError is modelled as the Except error carrying
  the human-readable reason string.
-/

set_option autoImplicit false

namespace SheHelp

/-- Decidable equality for Except results, so that concrete runs of
the fallible operations can be checked by evaluation. -/
instance {ε α : Type} [DecidableEq ε] [DecidableEq α] : DecidableEq (Except ε α) := fun x y =>
  match x, y with
  | .error a, .error b =>
    if h : a = b then .isTrue (by simp [h]) else .isFalse (by simp [h])
  | .ok a, .ok b =>
    if h : a = b then .isTrue (by simp [h]) else .isFalse (by simp [h])
  | .error _, .ok _ => .isFalse (fun h => Except.noConfusion h)
  | .ok _, .error _ => .isFalse (fun h => Except.noConfusion h)

/-- Time bounds of a transaction, in whole seconds since the epoch. -/
structure TimeBounds where
  minTime : Nat
  maxTime : Nat
deriving DecidableEq, Repr

/-- One operation of a transaction.  The challenge code only inspects
the operation type tag, the optional per-operation source account, the
manageData entry name and the (base64-decoded) manageData value. -/
structure Operation where
  opType : String
  source : Option String
  name : String
  value : List Nat
deriving DecidableEq, Repr

/-- The signed-over content of a transaction: source account, sequence
number, operation list and optional time bounds. -/
structure TxBody where
  source : String
  sequence : Int
  operations : List Operation
  timeBounds : Option TimeBounds
deriving DecidableEq, Repr

/-- The signature base: what Transaction.hash() commits to — the
network passphrase paired with the transaction body. -/
structure SigBase where
  network : String
  body : TxBody
deriving DecidableEq, Repr

/-- A decorated signature.  In the idealized cryptography model it
records who produced it and over which signature base; verification
succeeds exactly when both match the verifier's expectation. -/
structure DecoratedSignature where
  signerPk : String
  base : SigBase
deriving DecidableEq, Repr

/-- A keypair is identified by its public key; the secret key is
implicit (ideal signatures). -/
abbrev Keypair := String

/-- Idealized ed25519 signing: record the signer and the base. -/
def kpSign (kp : Keypair) (base : SigBase) : DecoratedSignature :=
  ⟨kp, base⟩

/-- Idealized ed25519 verification (keypair.verify(hash, sig) in the
source): the signature verifies under pk over base exactly when it was
produced by pk's secret key over that base. -/
def kpVerify (pk : Keypair) (base : SigBase) (sig : DecoratedSignature) : Bool :=
  decide (sig.signerPk = pk ∧ sig.base = base)

/-- A transaction as held in memory: body, the network passphrase it
is bound to, and its signature list. -/
structure Transaction where
  body : TxBody
  network : String
  signatures : List DecoratedSignature
deriving DecidableEq, Repr

/-- The transaction envelope (the structure the base64 XDR string
encodes): body and signatures, without a network binding. -/
structure Envelope where
  body : TxBody
  signatures : List DecoratedSignature
deriving DecidableEq, Repr

/-- Transaction.hash(): the content hash under the network identifier. -/
def txHash (tx : Transaction) : SigBase :=
  ⟨tx.network, tx.body⟩

/-- transaction.sign(keypair): append a signature over the current
hash. -/
def txSign (tx : Transaction) (kp : Keypair) : Transaction :=
  { tx with signatures := tx.signatures ++ [kpSign kp (txHash tx)] }

/-- new Transaction(challengeTx, networkPassphrase): decode the
envelope and bind it to the verifier-supplied network passphrase. -/
def parseTransaction (env : Envelope) (networkPassphrase : String) : Transaction :=
  ⟨env.body, networkPassphrase, env.signatures⟩

/-- transaction.toEnvelope().toXDR("base64"): forget the network
binding, keep body and signatures. -/
def toEnvelope (tx : Transaction) : Envelope :=
  ⟨tx.body, tx.signatures⟩

/-- Model of the randombytes external collaborator: n bytes derived
deterministically from a seed.  The library contract that matters to
the embedded code is that the result has exactly n bytes. -/
def randombytes (n seed : Nat) : List Nat :=
  (List.range n).map (fun i => (seed + i) % 256)

/-- Utils.buildChallengeTx(serverKeypair, clientAccountID, anchorName,
timeout, networkPassphrase).  The server account is created at
sequence sentinel -1; TransactionBuilder.build() increments it, so the
built transaction carries sequence 0.  Time bounds are
[now, now + timeout]; the single operation is a manageData entry named
anchorName ++ " auth" whose value is 48 random bytes with the client
account as per-operation source; the result is signed by the server
keypair and serialized to an envelope. -/
def buildChallengeTx (serverKeypair : Keypair) (clientAccountID anchorName : String)
    (timeout : Nat) (networkPassphrase : String) (now seed : Nat) : Envelope :=
  let value := randombytes 48 seed
  let body : TxBody :=
    { source := serverKeypair
      sequence := 0
      operations := [⟨"manageData", some clientAccountID, anchorName ++ " auth", value⟩]
      timeBounds := some ⟨now, now + timeout⟩ }
  let transaction : Transaction := ⟨body, networkPassphrase, []⟩
  toEnvelope (txSign transaction serverKeypair)

/-- Utils.verifyTxSignedBy(transaction, accountId): true exactly when
some attached signature verifies against the transaction hash under
the account's public key.  Total, never raises. -/
def verifyTxSignedBy (transaction : Transaction) (accountId : String) : Bool :=
  transaction.signatures.any (fun sig => kpVerify accountId (txHash transaction) sig)

/-- validateTimebounds(transaction) at machine time now: false when
the transaction has no time bounds, otherwise
now >= minTime && now <= maxTime. -/
def validateTimebounds (transaction : Transaction) (now : Nat) : Bool :=
  match transaction.body.timeBounds with
  | none => false
  | some tb => decide (tb.minTime ≤ now ∧ now ≤ tb.maxTime)

/-- The nine InvalidSep10ChallengeError reason strings, in check order. -/
def msgSequence : String := "The transaction sequence number should be zero"

def msgSource : String := "The transaction source account is not equal to the server\x27s account"

def msgOneOperation : String := "The transaction should contain only one operation"

def msgOpSource : String := "The transaction\x27s operation should contain a source account"

def msgManageData : String := "The transaction\x27s operation should be manageData"

def msgValueLength : String := "The transaction\x27s operation value should be a 64 bytes base64 random string"

def msgServerSig : String := "The transaction is not signed by the server"

def msgClientSig : String := "The transaction is not signed by the client"

def msgExpired : String := "The transaction has expired"

/-- Utils.verifyChallengeTx(challengeTx, serverAccountId,
networkPassphrase) at machine time now.  Decodes the envelope under
the verifier's network passphrase and runs the nine checks in source
order, failing fast with the reason of the first failing check. -/
def verifyChallengeTx (challengeTx : Envelope) (serverAccountId networkPassphrase : String)
    (now : Nat) : Except String Bool :=
  let transaction := parseTransaction challengeTx networkPassphrase
  if transaction.body.sequence ≠ 0 then
    .error msgSequence
  else if transaction.body.source ≠ serverAccountId then
    .error msgSource
  else if transaction.body.operations.length ≠ 1 then
    .error msgOneOperation
  else
    match transaction.body.operations with
    | [operation] =>
      if operation.source.isNone then
        .error msgOpSource
      else if operation.opType ≠ "manageData" then
        .error msgManageData
      else if operation.value.length ≠ 48 then
        .error msgValueLength
      else if ¬ verifyTxSignedBy transaction serverAccountId then
        .error msgServerSig
      else if ¬ verifyTxSignedBy transaction (operation.source.getD "") then
        .error msgClientSig
      else if ¬ validateTimebounds transaction now then
        .error msgExpired
      else
        .ok true
    | _ => .error msgOneOperation

/-- The client co-signing step of the round-trip: parse the challenge
under the network passphrase, sign it, re-serialize
(new Transaction(challenge, network); transaction.sign(clientKeypair);
transaction.toEnvelope().toXDR("base64")). -/
def signEnvelope (env : Envelope) (kp : Keypair) (networkPassphrase : String) : Envelope :=
  toEnvelope (txSign (parseTransaction env networkPassphrase) kp)

/-!
Query Builder (src/node_modules/stellar-sdk/src/call_builder.ts).

* A URL is modelled by its path segments and query parameters; the
  network layer is an explicit parameter (a function from request URL
  or href to response), and each operation returns, alongside its
  result, the list of HTTP GET requests it issues, so that issuing
  zero or one request is a provable statement.
* The _sendNormalRequest cache-busting query parameter and the
  authority/protocol completion are transport details outside the
  claims and are not modelled; a GET is identified by its target href.
-/

/-- A request URL: ordered path segments plus query parameters. -/
structure Url where
  segments : List String
  query : List (String × String)
deriving DecidableEq, Repr

/-- The typed error thrown by checkFilter: BadRequestError with its
message (the ConfigurationError of the specification's taxonomy). -/
structure BuilderError where
  message : String
deriving DecidableEq, Repr

/-- The mutable state of a CallBuilder: current url, pushed filters,
and the path segments captured at construction time. -/
structure CallBuilder where
  url : Url
  filter : List (List String)
  originalSegments : List String
deriving DecidableEq, Repr

/-- The CallBuilder constructor: url := serverUrl, filter := [],
originalSegments := url.segment(). -/
def mkCallBuilder (serverUrl : Url) : CallBuilder :=
  ⟨serverUrl, [], serverUrl.segments⟩

/-- checkFilter(): with two or more filters throw
BadRequestError("Too many filters specified"); with exactly one,
replace the url segments by the original segments with the filter's
path components appended; with none, leave the builder unchanged. -/
def checkFilter (b : CallBuilder) : Except BuilderError CallBuilder :=
  if b.filter.length ≥ 2 then
    .error ⟨"Too many filters specified"⟩
  else
    match b.filter with
    | [f] => .ok { b with url := { b.url with segments := b.originalSegments ++ f } }
    | _ => .ok b

/-- call(): run checkFilter synchronously, then issue the single GET
to the resulting url.  The success value is the url of the one request
issued; the error case issues no request at all. -/
def call (b : CallBuilder) : Except BuilderError Url :=
  (checkFilter b).map (fun b2 => b2.url)

/-- The join allow-list of the source (const JOINABLE). -/
def JOINABLE : List String := ["transaction"]

/-- A _links entry: href and the templated flag. -/
structure Link where
  href : String
  templated : Bool
deriving DecidableEq, Repr

/-- A raw JSON record as the claims exercise it: its _links entries
and its inline fields.  Field values are opaque payloads; an embedded
record carries no _links of its own, so _parseRecord returns it
unchanged and it can be identified with its payload. -/
structure RawRecord where
  links : List (String × Link)
  fields : List (String × String)
deriving DecidableEq, Repr

/-- What _parseRecord installs under a link key: either the
already-embedded value (the join short-circuit) or a function that
fetches the link — represented as the link descriptor it closes over. -/
inductive Accessor where
  | embedded (v : String)
  | fetchLink (l : Link)
deriving DecidableEq, Repr

/-- The branch of _parseRecord for one _links entry: if the key
already holds an inline value and the key is joinable, install the
embedded value; otherwise install the fetch function for the link. -/
def makeAccessor (json : RawRecord) (key : String) (link : Link) : Accessor :=
  match json.fields.lookup key with
  | some v => if key ∈ JOINABLE then .embedded v else .fetchLink link
  | none => .fetchLink link

/-- A record after _parseRecord: the plain fields (inline values
shadowed by a link key preserved under the key ++ "_attr" name) and
the accessor installed under each link key. -/
structure ParsedRecord where
  attrs : List (String × String)
  accessors : List (String × Accessor)
deriving DecidableEq, Repr

/-- _parseRecord(json): a record without _links is returned unchanged;
otherwise every link key gets an accessor, and an inline field whose
key collides with a link key is kept under key ++ "_attr". -/
def parseRecord (json : RawRecord) : ParsedRecord :=
  if json.links.isEmpty then
    ⟨json.fields, []⟩
  else
    ⟨ json.fields.map (fun kv =>
        if (json.links.lookup kv.1).isSome then (kv.1 ++ "_attr", kv.2) else kv)
    , json.links.map (fun kl => (kl.1, makeAccessor json kl.1 kl.2)) ⟩

/-- Invoking an installed accessor with caller-supplied template
parameters.  net maps a GET target href to the response payload; tmpl
is the URITemplate expansion of the urijs collaborator.  The first
component lists the GET requests issued: none for an embedded value
(the promise resolves in memory), exactly one for a link fetch, to the
href (template-expanded when the link is templated). -/
def resolveAccessor (net : String → String) (tmpl : String → List (String × String) → String)
    (a : Accessor) (opts : List (String × String)) : List String × String :=
  match a with
  | .embedded v => ([], v)
  | .fetchLink l =>
    let target := if l.templated then tmpl l.href opts else l.href
    ([target], net target)

/-- A raw collection response: the _embedded.records array and the
pagination hrefs of _links. -/
structure PageJson where
  records : List RawRecord
  nextHref : String
  prevHref : String
deriving DecidableEq, Repr

/-- A normalized Collection Page: parsed records plus the pagination
hrefs captured from this page's own _links at normalization time. -/
structure CollectionPage where
  records : List ParsedRecord
  nextHref : String
  prevHref : String
deriving DecidableEq, Repr

/-- _toCollectionPage(json): parse each record and capture this
page's own next/prev hrefs. -/
def toCollectionPage (json : PageJson) : CollectionPage :=
  ⟨json.records.map parseRecord, json.nextHref, json.prevHref⟩

/-- The next() accessor of a Collection Page: issue one GET to the
href captured from this page's own links and re-normalize the response
into a new Collection Page.  The first component is the list of GETs
issued by this invocation. -/
def pageNext (net : String → PageJson) (page : CollectionPage) : List String × CollectionPage :=
  ([page.nextHref], toCollectionPage (net page.nextHref))

/-- The prev() accessor, symmetric to next(). -/
def pagePrev (net : String → PageJson) (page : CollectionPage) : List String × CollectionPage :=
  ([page.prevHref], toCollectionPage (net page.prevHref))

/-!
Stream handlers (CallBuilder.stream).  The reconnect logic lives in
three closures — the reconnect timeout callback, onMessage and
onError.  Each is embedded as a step function from the stream state to
the new state plus the observable effects of that step: which
EventSource connections were closed and opened (identified by a
generation counter) and how many times the caller's onerror/onmessage
callbacks were invoked.  EventSource construction is modelled as
always succeeding (opening a new connection).
-/

/-- options.reconnectTimeout || 15 * 1000 — JavaScript truthiness: an
absent or zero value falls back to the 15000 ms default. -/
def reconnectDelay (reconnectTimeout : Option Nat) : Nat :=
  match reconnectTimeout with
  | some t => if t = 0 then 15000 else t
  | none => 15000

/-- The state owned by one stream() call: the current EventSource
connection generation (none before the first connect), the next fresh
generation, whether the reconnect timer is armed, and the cursor query
parameter. -/
structure StreamState where
  esGen : Option Nat
  nextGen : Nat
  timerArmed : Bool
  cursor : Option String
deriving DecidableEq, Repr

/-- The observable effects of one handler step. -/
structure StreamEffects where
  closedGens : List Nat
  openedGens : List Nat
  onerrorInvocations : Nat
  onmessageInvocations : Nat
deriving DecidableEq, Repr

/-- The reconnect timeout callback: if an EventSource exists close it,
then createEventSource() — open a fresh connection and re-arm the
timer.  The caller's onerror is not invoked. -/
def handleReconnectTimeout (s : StreamState) : StreamState × StreamEffects :=
  ( { esGen := some s.nextGen, nextGen := s.nextGen + 1, timerArmed := true, cursor := s.cursor }
  , ⟨s.esGen.toList, [s.nextGen], 0, 0⟩ )

/-- The onMessage handler: advance the cursor when the message carries
a paging_token, clear and re-arm the reconnect timer, and invoke the
caller's onmessage once.  No connection is touched and onerror is not
invoked. -/
def handleMessage (s : StreamState) (pagingToken : Option String) :
    StreamState × StreamEffects :=
  ( { s with
      cursor := match pagingToken with | some t => some t | none => s.cursor
      timerArmed := true }
  , ⟨[], [], 0, 1⟩ )

/-- The onError handler for a connection-level error event: invoke the
caller's onerror once, touching nothing else. -/
def handleStreamError (s : StreamState) : StreamState × StreamEffects :=
  (s, ⟨[], [], 1, 0⟩)

/-!
Specification-side rendering of §4.2: the nine checks as a list of
(check, reason) pairs in the specification's fixed order, and the
first-failure discipline.  This is the refinement target
verifyChallengeTx is compared against.
-/

/-- First-failure-wins over an ordered list of (check, reason) pairs. -/
def firstFailure : List (Bool × String) → Option String
  | [] => none
  | c :: rest => if c.1 then firstFailure rest else some c.2

/-- The nine checks of §4.2 in the specification's fixed order.
Checks that speak about "the operation" are rendered over the head of
the operation list and hold vacuously when there is none (the
single-operation check, earlier in the order, fails first in that
case). -/
def challengeChecks (transaction : Transaction) (serverAccountId : String) (now : Nat) :
    List (Bool × String) :=
  let opOk : (Operation → Bool) → Bool := fun p =>
    match transaction.body.operations.head? with
    | some op => p op
    | none => true
  [ (decide (transaction.body.sequence = 0), msgSequence)
  , (decide (transaction.body.source = serverAccountId), msgSource)
  , (decide (transaction.body.operations.length = 1), msgOneOperation)
  , (opOk (fun op => op.source.isSome), msgOpSource)
  , (opOk (fun op => decide (op.opType = "manageData")), msgManageData)
  , (opOk (fun op => decide (op.value.length = 48)), msgValueLength)
  , (verifyTxSignedBy transaction serverAccountId, msgServerSig)
  , (opOk (fun op => verifyTxSignedBy transaction (op.source.getD "")), msgClientSig)
  , (validateTimebounds transaction now, msgExpired) ]

/-- Modelled from the spec: verify_challenge as §4.2 words it — return
true when all nine checks hold, otherwise fail with the reason of the
first failing check in the fixed order. -/
def specVerifyChallenge (challengeTx : Envelope) (serverAccountId networkPassphrase : String)
    (now : Nat) : Except String Bool :=
  match firstFailure (challengeChecks (parseTransaction challengeTx networkPassphrase)
      serverAccountId now) with
  | some msg => .error msg
  | none => .ok true

/-- The first six checks (everything before the signature checks):
sequence zero, source is the server, exactly one operation, operation
has a source, operation is manageData, decoded value length 48. -/
def structuralChecksOk (transaction : Transaction) (serverAccountId : String) : Bool :=
  decide (transaction.body.sequence = 0) &&
  decide (transaction.body.source = serverAccountId) &&
  match transaction.body.operations with
  | [op] => op.source.isSome && decide (op.opType = "manageData") && decide (op.value.length = 48)
  | _ => false

/-- The first five checks (everything before the value-length check). -/
def preValueChecksOk (transaction : Transaction) (serverAccountId : String) : Bool :=
  decide (transaction.body.sequence = 0) &&
  decide (transaction.body.source = serverAccountId) &&
  match transaction.body.operations with
  | [op] => op.source.isSome && decide (op.opType = "manageData")
  | _ => false

/-- The account the client-signature check verifies against: the
per-operation source of the (single) operation. -/
def clientOf (env : Envelope) : String :=
  match env.body.operations.head? with
  | some op => op.source.getD ""
  | none => ""

/-- Mutating the challenge's operation value (the tampering step of
testable property 4): replace every operation's manageData value. -/
def mutateValue (env : Envelope) (v : List Nat) : Envelope :=
  { env with body := { env.body with
      operations := env.body.operations.map (fun op => { op with value := v }) } }

/-!
Concrete data for witnesses: a well-formed challenge body and two
envelopes, one carrying only a client signature and one carrying only
a server signature.
-/

/-- A structurally valid challenge body for witness instantiation. -/
def wBody : TxBody :=
  ⟨"SRV", 0, [⟨"manageData", some "CLI", "SDF auth", List.replicate 48 0⟩], some ⟨0, 300⟩⟩

/-- wBody signed only by the client (server signature stripped). -/
def wEnvClientOnly : Envelope := ⟨wBody, [⟨"CLI", ⟨"NET", wBody⟩⟩]⟩

/-- wBody signed only by the server (client signature stripped). -/
def wEnvServerOnly : Envelope := ⟨wBody, [⟨"SRV", ⟨"NET", wBody⟩⟩]⟩

/-!
Claim theorems.
-/

/-- C1: verify_challenge returns true exactly when all nine §4.2
checks hold and otherwise fails with the reason of the first failing
check in the fixed order (the refinement equation against the
spec-side first-failure rendering); in particular, when the six
structural checks hold, a missing server signature yields the
server-signature reason even when the client signature is present, and
a present server signature with a missing client signature yields the
client-signature reason. -/
theorem verifyChallengeTx_nine_checks_in_order (env : Envelope) (s netw : String) (now : Nat) :
    verifyChallengeTx env s netw now = specVerifyChallenge env s netw now ∧
    (structuralChecksOk (parseTransaction env netw) s = true →
      verifyTxSignedBy (parseTransaction env netw) s = false →
      verifyChallengeTx env s netw now = .error msgServerSig) ∧
    (structuralChecksOk (parseTransaction env netw) s = true →
      verifyTxSignedBy (parseTransaction env netw) s = true →
      verifyTxSignedBy (parseTransaction env netw) (clientOf env) = false →
      verifyChallengeTx env s netw now = .error msgClientSig) := by
  refine ⟨?_, ?_, ?_⟩
  · unfold verifyChallengeTx specVerifyChallenge challengeChecks parseTransaction
    rcases env with ⟨⟨src, seq, ops, tb⟩, sigs⟩
    dsimp only
    rcases ops with _ | ⟨⟨ty, osrc, nm, val⟩, _ | ⟨b, l⟩⟩
    · simp [firstFailure]
      split_ifs <;> simp_all
    · rcases osrc with _ | osrc
      · simp [firstFailure]
        split_ifs <;> simp_all
      · simp [firstFailure]
        split_ifs <;> simp_all
    · simp [firstFailure]
      split_ifs <;> simp_all
  · unfold verifyChallengeTx structuralChecksOk parseTransaction
    rcases env with ⟨⟨src, seq, ops, tb⟩, sigs⟩
    dsimp only
    rcases ops with _ | ⟨⟨ty, osrc, nm, val⟩, _ | ⟨b, l⟩⟩ <;>
      [skip; rcases osrc with _ | osrc; skip] <;> intro h1 h2 <;> simp_all
  · unfold verifyChallengeTx structuralChecksOk parseTransaction clientOf
    rcases env with ⟨⟨src, seq, ops, tb⟩, sigs⟩
    dsimp only
    rcases ops with _ | ⟨⟨ty, osrc, nm, val⟩, _ | ⟨b, l⟩⟩ <;>
      [skip; rcases osrc with _ | osrc; skip] <;> intro h1 h2 h3 <;> simp_all

/-- Witness for C1: at the concrete client-only-signed envelope the
hypotheses of the server-signature conjunct hold and the error is the
server reason; at the server-only-signed envelope the hypotheses of
the client-signature conjunct hold and the error is the client
reason. -/
theorem verifyChallengeTx_nine_checks_in_order_witness :
    (structuralChecksOk (parseTransaction wEnvClientOnly "NET") "SRV" = true ∧
     verifyTxSignedBy (parseTransaction wEnvClientOnly "NET") "SRV" = false ∧
     verifyChallengeTx wEnvClientOnly "SRV" "NET" 0 = .error msgServerSig) ∧
    (structuralChecksOk (parseTransaction wEnvServerOnly "NET") "SRV" = true ∧
     verifyTxSignedBy (parseTransaction wEnvServerOnly "NET") "SRV" = true ∧
     verifyTxSignedBy (parseTransaction wEnvServerOnly "NET") (clientOf wEnvServerOnly) = false ∧
     verifyChallengeTx wEnvServerOnly "SRV" "NET" 0 = .error msgClientSig) :=
  ⟨⟨by decide, by decide,
    (verifyChallengeTx_nine_checks_in_order wEnvClientOnly "SRV" "NET" 0).2.1
      (by decide) (by decide)⟩,
   ⟨by decide, by decide, by decide,
    (verifyChallengeTx_nine_checks_in_order wEnvServerOnly "SRV" "NET" 0).2.2
      (by decide) (by decide) (by decide)⟩⟩

/-- C2: for every builder, two or more filters make call() fail with
the configuration-misuse error (BadRequestError "Too many filters
specified") synchronously, issuing no request — the Except error
carries no request URL; with zero filters the GET goes to the builder
url unchanged, and with exactly one filter the GET goes to the
original segments with the filter's path components appended. -/
theorem call_filter_cardinality (b : CallBuilder) :
    (b.filter.length ≥ 2 → call b = .error ⟨"Too many filters specified"⟩) ∧
    (b.filter = [] → call b = .ok b.url) ∧
    (∀ f, b.filter = [f] →
      call b = .ok { b.url with segments := b.originalSegments ++ f }) := by
  unfold call checkFilter
  refine ⟨fun h => ?_, fun h => ?_, fun f h => ?_⟩
  · simp only [h, ge_iff_le, if_pos]
    rfl
  · simp [h, Except.map]
  · simp [h, Except.map]

/-- Witness for C2 at concrete builders with two, zero and one
filters. -/
theorem call_filter_cardinality_witness :
    (CallBuilder.mk ⟨["ledgers"], []⟩ [["a"], ["b"]] ["ledgers"]).filter.length ≥ 2 ∧
    call (CallBuilder.mk ⟨["ledgers"], []⟩ [["a"], ["b"]] ["ledgers"]) =
      .error ⟨"Too many filters specified"⟩ ∧
    call (CallBuilder.mk ⟨["ledgers"], []⟩ [] ["ledgers"]) = .ok ⟨["ledgers"], []⟩ ∧
    call (CallBuilder.mk ⟨["ledgers"], []⟩ [["accounts", "G1"]] ["ledgers"]) =
      .ok ⟨["ledgers", "accounts", "G1"], []⟩ :=
  ⟨by decide,
   (call_filter_cardinality (CallBuilder.mk ⟨["ledgers"], []⟩ [["a"], ["b"]] ["ledgers"])).1
     (by decide),
   (call_filter_cardinality (CallBuilder.mk ⟨["ledgers"], []⟩ [] ["ledgers"])).2.1 (by decide),
   (call_filter_cardinality
       (CallBuilder.mk ⟨["ledgers"], []⟩ [["accounts", "G1"]] ["ledgers"])).2.2
     ["accounts", "G1"] (by decide)⟩

/-- C3 counterexample: a challenge built with timeout 300 at time 1000
and verified immediately at time 1000, exactly as the claim words the
round trip, does not return true — it fails with the client-signature
reason, because buildChallengeTx signs only with the server keypair;
and verified at now + T + 1 it fails with the client-signature reason,
not the expiry reason. -/
theorem challenge_roundtrip_counterexample :
    verifyChallengeTx (buildChallengeTx "SRV" "CLI" "SDF" 300 "NET" 1000 7) "SRV" "NET" 1000
      = .error msgClientSig ∧
    verifyChallengeTx (buildChallengeTx "SRV" "CLI" "SDF" 300 "NET" 1000 7) "SRV" "NET" 1000
      ≠ .ok true ∧
    verifyChallengeTx (buildChallengeTx "SRV" "CLI" "SDF" 300 "NET" 1000 7) "SRV" "NET" 1301
      ≠ .error msgExpired := by
  refine ⟨by decide, by decide, by decide⟩

/-- C3 amended: for every timeout T, a challenge built with
timeout_seconds = T, co-signed by the client keypair named as the
operation source, and then verified at time now succeeds; the same
co-signed challenge verified at now + T + 1 fails with the expiry
reason. -/
theorem challenge_roundtrip_client_cosigned (serverKp clientKp anchorName : String)
    (timeout : Nat) (netw : String) (now seed : Nat) :
    verifyChallengeTx
        (signEnvelope (buildChallengeTx serverKp clientKp anchorName timeout netw now seed)
          clientKp netw) serverKp netw now = .ok true ∧
    verifyChallengeTx
        (signEnvelope (buildChallengeTx serverKp clientKp anchorName timeout netw now seed)
          clientKp netw) serverKp netw (now + timeout + 1) = .error msgExpired := by
  constructor <;>
    simp [verifyChallengeTx, buildChallengeTx, signEnvelope, parseTransaction, toEnvelope,
      txSign, txHash, kpSign, kpVerify, verifyTxSignedBy, validateTimebounds, randombytes,
      Nat.le_add_right]

/-- C4: when the first five checks pass, the value-length check fails
exactly when the base64-decoded operation value is not 48 bytes, with
the error message that speaks of 64 bytes; every built challenge
decodes to exactly 48 bytes; and a challenge whose value is mutated to
any non-48-byte length (in particular 47 or 49) fails with the
dedicated length-check reason, not a later one. -/
theorem value_length_check (env : Envelope) (s netw : String) (now : Nat) :
    (∀ op, env.body.operations = [op] →
      preValueChecksOk (parseTransaction env netw) s = true →
      (verifyChallengeTx env s netw now = .error msgValueLength ↔ op.value.length ≠ 48)) ∧
    (∀ serverKp clientAccountID anchorName timeout netwB nowB seed,
      (buildChallengeTx serverKp clientAccountID anchorName timeout netwB nowB seed).body.operations.map
        (fun op => op.value.length) = [48]) ∧
    (∀ v : List Nat, env.body.operations.length = 1 →
      preValueChecksOk (parseTransaction env netw) s = true → v.length ≠ 48 →
      verifyChallengeTx (mutateValue env v) s netw now = .error msgValueLength) := by
  refine ⟨?_, ?_, ?_⟩
  · intro op hops h
    rcases env with ⟨⟨src, seq, ops, tb⟩, sigs⟩
    rcases op with ⟨ty, osrc, nm, val⟩
    dsimp only [parseTransaction] at hops h ⊢
    subst hops
    unfold preValueChecksOk at h
    unfold verifyChallengeTx parseTransaction
    rcases osrc with _ | osrc
    · simp_all
    · simp_all
      by_cases h48 : val.length = 48
      · simp [h48]
        split_ifs <;> simp_all <;> decide
      · simp [h48]
  · intro serverKp clientAccountID anchorName timeout netwB nowB seed
    simp [buildChallengeTx, toEnvelope, txSign, randombytes]
  · intro v hlen1 h hv
    rcases env with ⟨⟨src, seq, ops, tb⟩, sigs⟩
    dsimp only [parseTransaction] at h hlen1 ⊢
    unfold preValueChecksOk at h
    unfold verifyChallengeTx parseTransaction mutateValue
    rcases ops with _ | ⟨⟨ty, osrc, nm, val⟩, _ | ⟨b, l⟩⟩
    · simp_all
    · rcases osrc with _ | osrc
      · simp_all
      · simp_all [hv]
    · simp_all

/-- Witness for C4: a concrete well-formed envelope whose value
mutated to 47 and to 49 bytes fails at the length check, while the
untouched 48-byte value does not produce the length-check error. -/
theorem value_length_check_witness :
    ((wEnvServerOnly.body.operations = [⟨"manageData", some "CLI", "SDF auth",
        List.replicate 48 0⟩]) ∧
     preValueChecksOk (parseTransaction wEnvServerOnly "NET") "SRV" = true ∧
     ¬ (verifyChallengeTx wEnvServerOnly "SRV" "NET" 0 = .error msgValueLength)) ∧
    verifyChallengeTx (mutateValue wEnvServerOnly (List.replicate 47 0)) "SRV" "NET" 0
      = .error msgValueLength ∧
    verifyChallengeTx (mutateValue wEnvServerOnly (List.replicate 49 0)) "SRV" "NET" 0
      = .error msgValueLength :=
  ⟨⟨by decide, by decide,
    fun h => absurd (((value_length_check wEnvServerOnly "SRV" "NET" 0).1
      ⟨"manageData", some "CLI", "SDF auth", List.replicate 48 0⟩ (by decide)
      (by decide)).mp h) (by decide)⟩,
   (value_length_check wEnvServerOnly "SRV" "NET" 0).2.2 (List.replicate 47 0)
     (by decide) (by decide) (by decide),
   (value_length_check wEnvServerOnly "SRV" "NET" 0).2.2 (List.replicate 49 0)
     (by decide) (by decide) (by decide)⟩

/-- C5: for every server keypair, client account id, realm name,
timeout and entropy, buildChallengeTx produces a signed envelope whose
time bounds are [now, now + timeout], whose operation list is exactly
one manageData entry named realm ++ " auth" with a 48-byte value and
operation-level source equal to the client account id, whose
transaction source is the server's account at sequence zero, which
verifies as signed by the server, and whose operation source differs
from the transaction source whenever the client id differs from the
server's. -/
theorem buildChallengeTx_structure (serverKp clientAccountID anchorName : String)
    (timeout : Nat) (netw : String) (now seed : Nat) :
    (buildChallengeTx serverKp clientAccountID anchorName timeout netw now seed).body.timeBounds
        = some ⟨now, now + timeout⟩ ∧
    (buildChallengeTx serverKp clientAccountID anchorName timeout netw now seed).body.operations
        = [⟨"manageData", some clientAccountID, anchorName ++ " auth", randombytes 48 seed⟩] ∧
    (randombytes 48 seed).length = 48 ∧
    (buildChallengeTx serverKp clientAccountID anchorName timeout netw now seed).body.source
        = serverKp ∧
    (buildChallengeTx serverKp clientAccountID anchorName timeout netw now seed).body.sequence
        = 0 ∧
    verifyTxSignedBy
        (parseTransaction (buildChallengeTx serverKp clientAccountID anchorName timeout netw now seed) netw)
        serverKp = true ∧
    (clientAccountID ≠ serverKp →
      ∀ op ∈ (buildChallengeTx serverKp clientAccountID anchorName timeout netw now seed).body.operations,
        op.source ≠ some (buildChallengeTx serverKp clientAccountID anchorName timeout netw now seed).body.source) := by
  refine ⟨rfl, rfl, by simp [randombytes], rfl, rfl, ?_, ?_⟩
  · simp [buildChallengeTx, toEnvelope, txSign, txHash, kpSign, kpVerify, verifyTxSignedBy,
      parseTransaction]
  · intro hne op hop
    simp only [buildChallengeTx, toEnvelope, txSign, List.mem_singleton] at hop ⊢
    subst hop
    simp [hne]

/-- Witness for C5: the distinctness conjunct discharged at concrete
distinct client and server identities. -/
theorem buildChallengeTx_structure_witness :
    ("CLI" : String) ≠ "SRV" ∧
    ∀ op ∈ (buildChallengeTx "SRV" "CLI" "SDF" 300 "NET" 1000 7).body.operations,
      op.source ≠ some (buildChallengeTx "SRV" "CLI" "SDF" 300 "NET" 1000 7).body.source :=
  ⟨by decide,
   (buildChallengeTx_structure "SRV" "CLI" "SDF" 300 "NET" 1000 7).2.2.2.2.2.2 (by decide)⟩

/-- C6: verifyTxSignedBy is a total boolean function (it never
raises), true exactly when some attached signature verifies against
the transaction's content hash under the network identifier using the
given account's public key, and false for a transaction with no
signatures. -/
theorem verifyTxSignedBy_spec (tx : Transaction) (accountId : String) :
    (verifyTxSignedBy tx accountId = true ↔
      ∃ sig ∈ tx.signatures, kpVerify accountId (txHash tx) sig = true) ∧
    (tx.signatures = [] → verifyTxSignedBy tx accountId = false) := by
  constructor
  · simp [verifyTxSignedBy, List.any_eq_true]
  · intro h
    simp [verifyTxSignedBy, h]

/-- Witness for C6: the no-signature conjunct at a concrete unsigned
transaction. -/
theorem verifyTxSignedBy_spec_witness :
    (Transaction.mk wBody "NET" []).signatures = [] ∧
    verifyTxSignedBy (Transaction.mk wBody "NET" []) "SRV" = false :=
  ⟨by decide, (verifyTxSignedBy_spec (Transaction.mk wBody "NET" []) "SRV").2 (by decide)⟩

/-- C7: for a raw record carrying a _links.transaction href, when the
record also carries the inline transaction field (the join=transactions
case) the installed accessor is the embedded one and resolving it
issues zero GET requests and returns the inline value; without the
inline field the installed accessor is the link fetch, and resolving
it issues exactly one GET, to the href — template-expanded with the
caller-supplied parameters when the link is templated. -/
theorem link_materialization (link : Link) (fields : List (String × String))
    (net : String → String) (tmpl : String → List (String × String) → String)
    (opts : List (String × String)) :
    (∀ v, fields.lookup "transaction" = some v →
      (parseRecord ⟨[("transaction", link)], fields⟩).accessors
          = [("transaction", .embedded v)] ∧
      resolveAccessor net tmpl (.embedded v) opts = ([], v)) ∧
    (fields.lookup "transaction" = none →
      (parseRecord ⟨[("transaction", link)], fields⟩).accessors
          = [("transaction", .fetchLink link)] ∧
      resolveAccessor net tmpl (.fetchLink link) opts =
        ([if link.templated then tmpl link.href opts else link.href],
         net (if link.templated then tmpl link.href opts else link.href))) := by
  constructor
  · intro v hv
    refine ⟨?_, rfl⟩
    simp [parseRecord, makeAccessor, JOINABLE, hv]
  · intro hv
    refine ⟨?_, rfl⟩
    simp [parseRecord, makeAccessor, JOINABLE, hv]

/-- Witness for C7: a concrete record with and without the inline
transaction field. -/
theorem link_materialization_witness :
    ([("transaction", "txpayload")].lookup "transaction" = some "txpayload" ∧
     (parseRecord ⟨[("transaction", ⟨"https://h/tx", false⟩)], [("transaction", "txpayload")]⟩).accessors
        = [("transaction", .embedded "txpayload")] ∧
     resolveAccessor (fun _ => "resp") (fun h _ => h) (.embedded "txpayload") []
        = ([], "txpayload")) ∧
    (([] : List (String × String)).lookup "transaction" = none ∧
     (parseRecord ⟨[("transaction", ⟨"https://h/tx", false⟩)], []⟩).accessors
        = [("transaction", .fetchLink ⟨"https://h/tx", false⟩)] ∧
     resolveAccessor (fun _ => "resp") (fun h _ => h) (.fetchLink ⟨"https://h/tx", false⟩) []
        = (["https://h/tx"], "resp")) :=
  ⟨⟨by decide,
    ((link_materialization ⟨"https://h/tx", false⟩ [("transaction", "txpayload")]
        (fun _ => "resp") (fun h _ => h) []).1 "txpayload" (by decide)).1,
    ((link_materialization ⟨"https://h/tx", false⟩ [("transaction", "txpayload")]
        (fun _ => "resp") (fun h _ => h) []).1 "txpayload" (by decide)).2⟩,
   ⟨by decide,
    ((link_materialization ⟨"https://h/tx", false⟩ []
        (fun _ => "resp") (fun h _ => h) []).2 (by decide)).1,
    ((link_materialization ⟨"https://h/tx", false⟩ []
        (fun _ => "resp") (fun h _ => h) []).2 (by decide)).2⟩⟩

/-- C8: pagination is not memoized — next() on a Collection Page
issues exactly one GET, to the href captured from that page's own
links, and re-normalizes the response into a new Collection Page;
next() on the page so returned issues a second GET, to the second
page's own next href, again re-normalized. -/
theorem pagination_not_memoized (net : String → PageJson) (page : CollectionPage) :
    (pageNext net page).1 = [page.nextHref] ∧
    (pageNext net page).2 = toCollectionPage (net page.nextHref) ∧
    (pageNext net (pageNext net page).2).1 = [(net page.nextHref).nextHref] ∧
    (pageNext net (pageNext net page).2).2 =
      toCollectionPage (net (net page.nextHref).nextHref) :=
  ⟨rfl, rfl, rfl, rfl⟩

/-- C9: the reconnect-timeout handler closes the current connection,
opens exactly one fresh connection and re-arms the timer without ever
invoking the caller's onerror; onmessage handling never invokes
onerror either; only the connection-error handler invokes onerror
(exactly once); and an absent reconnectTimeout option falls back to
the 15000 ms default. -/
theorem stream_reconnect_silent (s : StreamState) (pagingToken : Option String) :
    (handleReconnectTimeout s).2.onerrorInvocations = 0 ∧
    (handleReconnectTimeout s).2.closedGens = s.esGen.toList ∧
    (handleReconnectTimeout s).2.openedGens = [s.nextGen] ∧
    (handleReconnectTimeout s).1.esGen = some s.nextGen ∧
    (handleReconnectTimeout s).1.timerArmed = true ∧
    (handleMessage s pagingToken).2.onerrorInvocations = 0 ∧
    (handleStreamError s).2.onerrorInvocations = 1 ∧
    reconnectDelay none = 15000 :=
  ⟨rfl, rfl, rfl, rfl, rfl, rfl, rfl, rfl⟩

/-- C10: the validity window is inclusive at both ends — the
time-bounds check passes exactly when minTime <= now <= maxTime, fails
whenever the transaction carries no time bounds, passes at exactly
now = maxTime, and full verification of a client-co-signed challenge
at exactly build-time + timeout_seconds still succeeds. -/
theorem timebounds_inclusive_both_ends (tx : Transaction) (now : Nat) :
    (validateTimebounds tx now = true ↔
      ∃ tb, tx.body.timeBounds = some tb ∧ tb.minTime ≤ now ∧ now ≤ tb.maxTime) ∧
    (tx.body.timeBounds = none → validateTimebounds tx now = false) ∧
    (∀ tb, tx.body.timeBounds = some tb → tb.minTime ≤ tb.maxTime →
      validateTimebounds tx tb.maxTime = true) ∧
    (∀ serverKp clientKp anchorName timeout netw nowB seed,
      verifyChallengeTx
        (signEnvelope (buildChallengeTx serverKp clientKp anchorName timeout netw nowB seed)
          clientKp netw) serverKp netw (nowB + timeout) = .ok true) := by
  refine ⟨?_, ?_, ?_, ?_⟩
  · unfold validateTimebounds
    rcases htb : tx.body.timeBounds with _ | tb <;> simp [htb]
  · intro h
    simp [validateTimebounds, h]
  · intro tb htb hle
    simp [validateTimebounds, htb, hle, tb.minTime.le_refl]
  · intro serverKp clientKp anchorName timeout netw nowB seed
    simp [verifyChallengeTx, buildChallengeTx, signEnvelope, parseTransaction, toEnvelope,
      txSign, txHash, kpSign, kpVerify, verifyTxSignedBy, validateTimebounds, randombytes,
      Nat.le_add_right]

/-- Witness for C10: concrete time bounds [10, 20] — the check passes
at both ends and at a midpoint, fails outside, and fails with no
bounds; a concrete co-signed challenge verifies at exactly
build-time + timeout. -/
theorem timebounds_inclusive_both_ends_witness :
    ((Transaction.mk ⟨"SRV", 0, [], some ⟨10, 20⟩⟩ "NET" []).body.timeBounds = some ⟨10, 20⟩ ∧
     (10 : Nat) ≤ 20 ∧
     validateTimebounds (Transaction.mk ⟨"SRV", 0, [], some ⟨10, 20⟩⟩ "NET" []) 20 = true) ∧
    ((Transaction.mk ⟨"SRV", 0, [], none⟩ "NET" []).body.timeBounds = none ∧
     validateTimebounds (Transaction.mk ⟨"SRV", 0, [], none⟩ "NET" []) 20 = false) ∧
    verifyChallengeTx
        (signEnvelope (buildChallengeTx "SRV" "CLI" "SDF" 300 "NET" 1000 7) "CLI" "NET")
        "SRV" "NET" 1300 = .ok true :=
  ⟨⟨by decide, by decide,
    (timebounds_inclusive_both_ends (Transaction.mk ⟨"SRV", 0, [], some ⟨10, 20⟩⟩ "NET" []) 0).2.2.1
      ⟨10, 20⟩ (by decide) (by decide)⟩,
   ⟨by decide,
    (timebounds_inclusive_both_ends (Transaction.mk ⟨"SRV", 0, [], none⟩ "NET" []) 20).2.1
      (by decide)⟩,
   (timebounds_inclusive_both_ends (Transaction.mk wBody "NET" []) 0).2.2.2
     "SRV" "CLI" "SDF" 300 "NET" 1000 7⟩

end SheHelp
